import Mathlib

/-!
Shallow embedding of `src/mcp-k8s.py`, a small MCP tool server exposing
Kubernetes operations.  The external cluster client (`kubernetes.client.CoreV1Api`)
is modelled as a structure of `Except`-valued functions: `Except.error e`
represents the Python call raising an exception whose `str()` rendering is `e`,
and `Except.ok v` represents the call returning `v`.  Each handler is a total
Lean function returning the display string the Python handler returns; the
try/except blocks of the source become matches on the `Except` value.
-/

/-- One entry of `pod.status.container_statuses`; only its `state` field is
rendered by the code. -/
structure ContainerStatus where
  state : String
  deriving DecidableEq

/-- The fields of a pod object that `get_pods` renders. -/
structure Pod where
  metadata_name : String
  metadata_namespace : String
  status_phase : String
  container_statuses : List ContainerStatus
  pod_ip : String
  node_name : String
  creation_timestamp : String
  deriving DecidableEq

/-- Result of `list_namespaced_pod` / `list_pod_for_all_namespaces`: an object
with an `items` list. -/
structure PodList where
  items : List Pod
  deriving DecidableEq

/-- The fields of an event object that `get_pod_events` reads: the involved
object's name (used for filtering) and the rendered fields. -/
structure Event where
  involved_object_name : String
  message : String
  reason : String
  type : String
  source_component : String
  first_timestamp : String
  last_timestamp : String
  deriving DecidableEq

/-- Result of `list_namespaced_event`: an object with an `items` list. -/
structure EventList where
  items : List Event
  deriving DecidableEq

/-- One entry of the `containers` list of a submitted pod manifest. -/
structure ContainerSpec where
  name : String
  image : String
  deriving DecidableEq

/-- The pod manifest dict built by `create_pod` (lines 99-106 of the source). -/
structure PodManifest where
  apiVersion : String
  kind : String
  metadata_name : String
  metadata_namespace : String
  spec_containers : List ContainerSpec
  deriving DecidableEq

/-- The namespace manifest dict built by `create_namespace` (lines 121-125). -/
structure NamespaceManifest where
  apiVersion : String
  kind : String
  metadata_name : String
  deriving DecidableEq

/-- The external cluster client `v1 = client.CoreV1Api()`: each field models one
client method used by the handlers, taking exactly the arguments the source
passes and either raising (`Except.error`) or returning (`Except.ok`). -/
structure CoreV1Api where
  list_namespaced_pod : String → Except String PodList
  list_pod_for_all_namespaces : Except String PodList
  read_namespaced_pod_log : String → String → Int → Except String String
  create_namespaced_pod : String → PodManifest → Except String Unit
  create_namespace : NamespaceManifest → Except String Unit
  delete_namespaced_pod : String → String → Except String Unit
  delete_namespace : String → Except String Unit
  list_namespaced_event : String → Except String EventList

/-- Python truthiness of the `namespace` argument of `get_pods`, whose Python
type is `str` or `None`: `None` and the empty string are falsy. -/
def pyTruthy (ns : Option String) : Bool :=
  match ns with
  | none => false
  | some s => !s.isEmpty

/-- The per-pod f-string of `get_pods` (source lines 53-61).  Indexing
`container_statuses[0]` on an empty list raises inside the try block, modelled
by `Except.error`. -/
def format_pod (pod : Pod) : Except String String :=
  match pod.container_statuses with
  | [] => Except.error "list index out of range"
  | s :: _ =>
    Except.ok ("\nPod: " ++ pod.metadata_name ++
      "\nNamespace: " ++ pod.metadata_namespace ++
      "\nStatus: " ++ pod.status_phase ++
      "\nContainer Status: " ++ s.state ++
      "\nIP: " ++ pod.pod_ip ++
      "\nNode: " ++ pod.node_name ++
      "\nCreated: " ++ pod.creation_timestamp ++ "\n")

/-- The body of `get_pods` after the external call: empty-list sentinel,
per-pod formatting, join with the separator, and the except clause turning any
raised exception into the prefixed error string. -/
def render_pods (r : Except String PodList) : String :=
  match r with
  | Except.error e => "Error retrieving pods: " ++ e
  | Except.ok pods =>
    if pods.items.isEmpty then "No pods found."
    else
      match pods.items.mapM format_pod with
      | Except.ok pod_info => String.intercalate "\n---\n" pod_info
      | Except.error e => "Error retrieving pods: " ++ e

/-- Handler `get_pods` (source lines 35-67): choose the external list call by
Python truthiness of `namespace`, then render. -/
def get_pods (v1 : CoreV1Api) (ns : Option String) : String :=
  render_pods (if pyTruthy ns then v1.list_namespaced_pod (ns.getD "") else
    v1.list_pod_for_all_namespaces)

/-- Handler `get_pod_logs` (source lines 69-87): one external call, raw log
text on success, prefixed error string on exception. -/
def get_pod_logs (v1 : CoreV1Api) (pod_name ns : String) (tail_lines : Int) : String :=
  match v1.read_namespaced_pod_log pod_name ns tail_lines with
  | Except.ok logs => logs
  | Except.error e => "Error retrieving pod logs: " ++ e

/-- The pod manifest dict literal of `create_pod` (source lines 99-106). -/
def mkPodManifest (pod_name ns image : String) : PodManifest :=
  ⟨"v1", "Pod", pod_name, ns, [⟨pod_name, image⟩]⟩

/-- Handler `create_pod` (source lines 89-111). -/
def create_pod (v1 : CoreV1Api) (pod_name ns image : String) : String :=
  match v1.create_namespaced_pod ns (mkPodManifest pod_name ns image) with
  | Except.ok _ => "Pod " ++ pod_name ++ " created in namespace " ++ ns ++ "."
  | Except.error e => "Error creating pod: " ++ e

/-- The namespace manifest dict literal of `create_namespace` (lines 121-125). -/
def mkNamespaceManifest (ns : String) : NamespaceManifest :=
  ⟨"v1", "Namespace", ns⟩

/-- Handler `create_namespace` (source lines 113-130). -/
def create_namespace (v1 : CoreV1Api) (ns : String) : String :=
  match v1.create_namespace (mkNamespaceManifest ns) with
  | Except.ok _ => "Namespace " ++ ns ++ " created."
  | Except.error e => "Error creating namespace: " ++ e

/-- Handler `delete_pod` (source lines 132-145). -/
def delete_pod (v1 : CoreV1Api) (pod_name ns : String) : String :=
  match v1.delete_namespaced_pod pod_name ns with
  | Except.ok _ => "Pod " ++ pod_name ++ " deleted from namespace " ++ ns ++ "."
  | Except.error e => "Error deleting pod: " ++ e

/-- Handler `delete_namespace` (source lines 147-159). -/
def delete_namespace (v1 : CoreV1Api) (ns : String) : String :=
  match v1.delete_namespace ns with
  | Except.ok _ => "Namespace " ++ ns ++ " deleted."
  | Except.error e => "Error deleting namespace: " ++ e

/-- The per-event f-string of `get_pod_events` (source lines 177-186): the
triple-quoted literal opens with three newlines. -/
def format_event (ev : Event) : String :=
  "\n\n\nEvent: " ++ ev.message ++
    "\nReason: " ++ ev.reason ++
    "\nType: " ++ ev.type ++
    "\nSource: " ++ ev.source_component ++
    "\nFirst Seen: " ++ ev.first_timestamp ++
    "\nLast Seen: " ++ ev.last_timestamp ++ "\n"

/-- The body of `get_pod_events` after the external call: filter by the
involved object's name, empty sentinel, formatting, join, except clause. -/
def render_pod_events (pod_name : String) (r : Except String EventList) : String :=
  match r with
  | Except.error e => "Error retrieving pod events: " ++ e
  | Except.ok events =>
    let pod_events := events.items.filter (fun ev => ev.involved_object_name == pod_name)
    if pod_events.isEmpty then "No events found for this pod."
    else String.intercalate "\n---\n" (pod_events.map format_event)

/-- Handler `get_pod_events` (source lines 160-191). -/
def get_pod_events (v1 : CoreV1Api) (pod_name ns : String) : String :=
  render_pod_events pod_name (v1.list_namespaced_event ns)

/-- Arguments of `get_pod_logs` as supplied by a caller: `none` models an
omitted optional argument. -/
structure GetPodLogsArgs where
  pod_name : String
  ns? : Option String
  tail_lines? : Option Int

/-- Invoking `get_pod_logs` with Python's declared parameter defaults
(`namespace='default'`, `tail_lines=50`, source line 70) filled in for omitted
arguments. -/
def get_pod_logs_invoke (v1 : CoreV1Api) (a : GetPodLogsArgs) : String :=
  get_pod_logs v1 a.pod_name (a.ns?.getD "default") (a.tail_lines?.getD 50)

/-- Arguments of `create_pod` as supplied by a caller: `none` models an omitted
optional argument. -/
structure CreatePodArgs where
  pod_name : String
  ns? : Option String
  image? : Option String

/-- Invoking `create_pod` with Python's declared parameter defaults
(`namespace='default'`, `image='nginx'`, source line 90) filled in for omitted
arguments. -/
def create_pod_invoke (v1 : CoreV1Api) (a : CreatePodArgs) : String :=
  create_pod v1 a.pod_name (a.ns?.getD "default") (a.image?.getD "nginx")

/-- What the config bootstrap (source lines 21-33) did: local kube-config
succeeded, in-cluster succeeded after local failed, or both failed and the
final exception was logged. -/
inductive ConfigOutcome where
  | kubeConfig : ConfigOutcome
  | inCluster : ConfigOutcome
  | loadFailed : String → ConfigOutcome
  deriving DecidableEq

/-- Observable result of the bootstrap: which outcome occurred, whether the
in-cluster load was attempted, and whether `v1 = client.CoreV1Api()` (source
line 33, outside both try blocks) was still constructed. -/
structure BootstrapResult where
  outcome : ConfigOutcome
  triedInCluster : Bool
  clientConstructed : Bool
  deriving DecidableEq

/-- The context name passed to `config.load_kube_config` (source line 22). -/
def kube_context : String := "kind-mcp-server"

/-- The config bootstrap (source lines 21-33): try `load_kube_config` with the
named context; only on exception try `load_incluster_config`; on a second
exception log the error; in every case fall through and construct the client. -/
def bootstrap (loadKube loadIncluster : Except String Unit) : BootstrapResult :=
  match loadKube with
  | Except.ok _ => ⟨ConfigOutcome.kubeConfig, false, true⟩
  | Except.error _ =>
    match loadIncluster with
    | Except.ok _ => ⟨ConfigOutcome.inCluster, true, true⟩
    | Except.error e => ⟨ConfigOutcome.loadFailed e, true, true⟩

/-- The parsed CLI arguments (source lines 222-225). -/
structure CliArgs where
  host : String
  port : Int
  deriving DecidableEq

/-- The option flags registered on the argument parser (source lines 223-224). -/
def cli_flags : List String := ["--host", "--port"]

/-- Argument parsing (source lines 222-225): `none` models an omitted flag,
which receives the `add_argument` default. -/
def parse_args (hostArg : Option String) (portArg : Option Int) : CliArgs :=
  ⟨hostArg.getD "0.0.0.0", portArg.getD 8081⟩

/-- A client all of whose calls raise with message `e`; used as a concrete
witness input. -/
def failingApi (e : String) : CoreV1Api :=
  ⟨fun _ => Except.error e, Except.error e, fun _ _ _ => Except.error e,
    fun _ _ => Except.error e, fun _ => Except.error e, fun _ _ => Except.error e,
    fun _ => Except.error e, fun _ => Except.error e⟩

/-- A client all of whose calls succeed, with empty listings and a fixed log
text; used as a concrete witness input. -/
def okApi : CoreV1Api :=
  ⟨fun _ => Except.ok ⟨[]⟩, Except.ok ⟨[]⟩, fun _ _ _ => Except.ok "log-line",
    fun _ _ => Except.ok (), fun _ => Except.ok (), fun _ _ => Except.ok (),
    fun _ => Except.ok (), fun _ => Except.ok ⟨[]⟩⟩

/-- A sample event whose involved object is pod `demo`. -/
def sampleEventA : Event :=
  ⟨"demo", "Started container", "Started", "Normal", "kubelet", "t1", "t2"⟩

/-- A sample event whose involved object is a different pod. -/
def sampleEventB : Event :=
  ⟨"other", "Pulled image", "Pulled", "Normal", "kubelet", "t3", "t4"⟩

/-- A client whose event listing returns the two sample events; used as a
concrete witness input. -/
def eventsApi : CoreV1Api :=
  ⟨fun _ => Except.ok ⟨[]⟩, Except.ok ⟨[]⟩, fun _ _ _ => Except.ok "",
    fun _ _ => Except.ok (), fun _ => Except.ok (), fun _ _ => Except.ok (),
    fun _ => Except.ok (), fun _ => Except.ok ⟨[sampleEventA, sampleEventB]⟩⟩

/-- C1: for every one of the handlers (get_pods, get_pod_logs, create_pod,
create_namespace, delete_pod, delete_namespace, get_pod_events), when its
external cluster-client call raises an exception rendered as `e`, the handler
catches it and returns the string formed of its documented error prefix
followed by `e` — a normal string result, so the exception is never propagated
(the handlers are total `String`-valued functions).  For get_pods both external
calls are covered: the all-namespaces listing raising (namespace `None` or the
falsy empty string) and the namespaced listing raising (non-empty namespace). -/
theorem handlers_catch_and_format_errors (v1 : CoreV1Api) (e pn ns img : String)
    (t : Int)
    (hns : ns.isEmpty = false)
    (h1 : v1.list_pod_for_all_namespaces = Except.error e)
    (h1n : v1.list_namespaced_pod ns = Except.error e)
    (h2 : v1.read_namespaced_pod_log pn ns t = Except.error e)
    (h3 : v1.create_namespaced_pod ns (mkPodManifest pn ns img) = Except.error e)
    (h4 : v1.create_namespace (mkNamespaceManifest ns) = Except.error e)
    (h5 : v1.delete_namespaced_pod pn ns = Except.error e)
    (h6 : v1.delete_namespace ns = Except.error e)
    (h7 : v1.list_namespaced_event ns = Except.error e) :
    get_pods v1 none = "Error retrieving pods: " ++ e ∧
    get_pods v1 (some "") = "Error retrieving pods: " ++ e ∧
    get_pods v1 (some ns) = "Error retrieving pods: " ++ e ∧
    get_pod_logs v1 pn ns t = "Error retrieving pod logs: " ++ e ∧
    create_pod v1 pn ns img = "Error creating pod: " ++ e ∧
    create_namespace v1 ns = "Error creating namespace: " ++ e ∧
    delete_pod v1 pn ns = "Error deleting pod: " ++ e ∧
    delete_namespace v1 ns = "Error deleting namespace: " ++ e ∧
    get_pod_events v1 pn ns = "Error retrieving pod events: " ++ e := by
  have he : "".isEmpty = true := rfl
  refine ⟨?_, ?_, ?_, ?_, ?_, ?_, ?_, ?_, ?_⟩ <;>
    simp [get_pods, pyTruthy, render_pods, get_pod_logs, create_pod,
      create_namespace, delete_pod, delete_namespace, get_pod_events,
      render_pod_events, hns, he, h1, h1n, h2, h3, h4, h5, h6, h7]

/-- Witness for C1: a client every call of which raises `boom`. -/
theorem handlers_catch_and_format_errors_witness :
    get_pods (failingApi "boom") none = "Error retrieving pods: " ++ "boom" ∧
    get_pods (failingApi "boom") (some "") = "Error retrieving pods: " ++ "boom" ∧
    get_pods (failingApi "boom") (some "default") =
      "Error retrieving pods: " ++ "boom" ∧
    get_pod_logs (failingApi "boom") "p" "default" 50 =
      "Error retrieving pod logs: " ++ "boom" ∧
    create_pod (failingApi "boom") "p" "default" "nginx" =
      "Error creating pod: " ++ "boom" ∧
    create_namespace (failingApi "boom") "default" =
      "Error creating namespace: " ++ "boom" ∧
    delete_pod (failingApi "boom") "p" "default" =
      "Error deleting pod: " ++ "boom" ∧
    delete_namespace (failingApi "boom") "default" =
      "Error deleting namespace: " ++ "boom" ∧
    get_pod_events (failingApi "boom") "p" "default" =
      "Error retrieving pod events: " ++ "boom" :=
  handlers_catch_and_format_errors (failingApi "boom") "boom" "p" "default"
    "nginx" 50 rfl rfl rfl rfl rfl rfl rfl rfl rfl

/-- C2: when the external list call succeeds with an empty pod list, get_pods
returns exactly "No pods found." — in the all-namespaces branch (namespace
`None` or empty) and in the namespaced branch alike. -/
theorem get_pods_empty_sentinel (v1 : CoreV1Api) (ns : String)
    (hns : ns.isEmpty = false)
    (h1 : v1.list_pod_for_all_namespaces = Except.ok ⟨[]⟩)
    (h2 : v1.list_namespaced_pod ns = Except.ok ⟨[]⟩) :
    get_pods v1 none = "No pods found." ∧
    get_pods v1 (some "") = "No pods found." ∧
    get_pods v1 (some ns) = "No pods found." := by
  have he : "".isEmpty = true := rfl
  refine ⟨?_, ?_, ?_⟩ <;> simp [get_pods, pyTruthy, render_pods, hns, h1, h2, he]

/-- Witness for C2: a client whose listings are empty. -/
theorem get_pods_empty_sentinel_witness :
    get_pods okApi none = "No pods found." ∧
    get_pods okApi (some "") = "No pods found." ∧
    get_pods okApi (some "default") = "No pods found." :=
  get_pods_empty_sentinel okApi "default" rfl rfl rfl

/-- C3: when the external event-list call succeeds and filtering the events to
the given pod name leaves nothing, get_pod_events returns exactly
"No events found for this pod.". -/
theorem get_pod_events_empty_sentinel (v1 : CoreV1Api) (pn ns : String)
    (evs : EventList)
    (h : v1.list_namespaced_event ns = Except.ok evs)
    (hf : evs.items.filter (fun ev => ev.involved_object_name == pn) = []) :
    get_pod_events v1 pn ns = "No events found for this pod." := by
  simp [get_pod_events, render_pod_events, h, hf]

/-- Witness for C3: two events, neither about pod `missing`. -/
theorem get_pod_events_empty_sentinel_witness :
    get_pod_events eventsApi "missing" "default" = "No events found for this pod." :=
  get_pod_events_empty_sentinel eventsApi "missing" "default"
    ⟨[sampleEventA, sampleEventB]⟩ rfl (by decide)

/-- C4: get_pod_events lists the namespace's events and keeps exactly those
whose involved object's name equals the pod name (membership in the kept list
is equivalent to membership in the listing together with name equality), and
when the kept list is nonempty it returns their formatted blocks joined by the
separator line. -/
theorem get_pod_events_filters_by_name (v1 : CoreV1Api) (pn ns : String)
    (evs : EventList)
    (h : v1.list_namespaced_event ns = Except.ok evs) :
    (∀ ev : Event,
      ev ∈ evs.items.filter (fun ev => ev.involved_object_name == pn) ↔
        ev ∈ evs.items ∧ ev.involved_object_name = pn) ∧
    (evs.items.filter (fun ev => ev.involved_object_name == pn) ≠ [] →
      get_pod_events v1 pn ns = String.intercalate "\n---\n"
        ((evs.items.filter (fun ev => ev.involved_object_name == pn)).map
          format_event)) := by
  constructor
  · intro ev
    simp [List.mem_filter]
  · intro hne
    cases hfe : evs.items.filter (fun ev => ev.involved_object_name == pn) with
    | nil => exact absurd hfe hne
    | cons a l => simp [get_pod_events, render_pod_events, h, hfe]

/-- Witness for C4: of the two sample events only the one about pod `demo` is
kept and rendered. -/
theorem get_pod_events_filters_by_name_witness :
    get_pod_events eventsApi "demo" "default" = String.intercalate "\n---\n"
      ((([sampleEventA, sampleEventB] : List Event).filter
        (fun ev => ev.involved_object_name == "demo")).map format_event) :=
  (get_pod_events_filters_by_name eventsApi "demo" "default"
    ⟨[sampleEventA, sampleEventB]⟩ rfl).2 (by decide)

/-- C5: when the external create call succeeds, create_pod returns
"Pod <name> created in namespace <ns>.", and when the external delete call
succeeds, delete_pod returns "Pod <name> deleted from namespace <ns>." — the
confirmation strings interpolate the given pod name and namespace. -/
theorem create_delete_pod_confirmations (v1 : CoreV1Api) (pn ns img : String)
    (hc : v1.create_namespaced_pod ns (mkPodManifest pn ns img) = Except.ok ())
    (hd : v1.delete_namespaced_pod pn ns = Except.ok ()) :
    create_pod v1 pn ns img = "Pod " ++ pn ++ " created in namespace " ++ ns ++ "." ∧
    delete_pod v1 pn ns = "Pod " ++ pn ++ " deleted from namespace " ++ ns ++ "." := by
  constructor <;> simp [create_pod, delete_pod, hc, hd]

/-- Witness for C5: the scenario of the spec, `demo` in `default`. -/
theorem create_delete_pod_confirmations_witness :
    create_pod okApi "demo" "default" "nginx" =
      "Pod demo created in namespace default." ∧
    delete_pod okApi "demo" "default" =
      "Pod demo deleted from namespace default." :=
  create_delete_pod_confirmations okApi "demo" "default" "nginx" rfl rfl

/-- C6: the manifest create_pod submits has exactly one container, whose image
is the image argument, and metadata name and namespace equal to the arguments;
omitting the image argument submits image "nginx"; and create_pod's result is
determined by the single external create call applied to that manifest. -/
theorem create_pod_manifest_shape (v1 : CoreV1Api) (pn ns img : String) :
    (mkPodManifest pn ns img).spec_containers = [⟨pn, img⟩] ∧
    (mkPodManifest pn ns img).metadata_name = pn ∧
    (mkPodManifest pn ns img).metadata_namespace = ns ∧
    create_pod_invoke v1 ⟨pn, some ns, none⟩ = create_pod v1 pn ns "nginx" ∧
    create_pod v1 pn ns img =
      (match v1.create_namespaced_pod ns (mkPodManifest pn ns img) with
        | Except.ok _ => "Pod " ++ pn ++ " created in namespace " ++ ns ++ "."
        | Except.error e => "Error creating pod: " ++ e) :=
  ⟨rfl, rfl, rfl, rfl, rfl⟩

/-- C7: with namespace and tail count omitted, get_pod_logs runs with namespace
"default" and tail count 50, its result is determined by the single external
log-fetch call at exactly those values, and on success it returns the fetched
log text unchanged. -/
theorem get_pod_logs_defaults_and_passthrough (v1 : CoreV1Api) (pn logs : String)
    (h : v1.read_namespaced_pod_log pn "default" 50 = Except.ok logs) :
    get_pod_logs_invoke v1 ⟨pn, none, none⟩ = get_pod_logs v1 pn "default" 50 ∧
    get_pod_logs_invoke v1 ⟨pn, none, none⟩ = logs := by
  refine ⟨rfl, ?_⟩
  simp [get_pod_logs_invoke, get_pod_logs, h]

/-- Witness for C7: the fixed log text of `okApi` comes back unchanged. -/
theorem get_pod_logs_defaults_and_passthrough_witness :
    get_pod_logs_invoke okApi ⟨"p", none, none⟩ = "log-line" :=
  (get_pod_logs_defaults_and_passthrough okApi "p" "log-line" rfl).2

/-- C8: the bootstrap tries local kube-config first; it attempts in-cluster
discovery exactly when the local load raises; when both raise the error is
recorded (logged) and a client is still constructed — in every case
`clientConstructed` holds, so execution continues. -/
theorem bootstrap_fallback_order (lk li : Except String Unit) :
    (bootstrap lk li).clientConstructed = true ∧
    ((bootstrap lk li).triedInCluster = true ↔ ∃ e, lk = Except.error e) ∧
    (∀ u, lk = Except.ok u →
      bootstrap lk li = ⟨ConfigOutcome.kubeConfig, false, true⟩) ∧
    (∀ e1, lk = Except.error e1 → ∀ u, li = Except.ok u →
      bootstrap lk li = ⟨ConfigOutcome.inCluster, true, true⟩) ∧
    (∀ e1 e2, lk = Except.error e1 → li = Except.error e2 →
      bootstrap lk li = ⟨ConfigOutcome.loadFailed e2, true, true⟩) := by
  cases lk <;> cases li <;> simp [bootstrap]

/-- Witness for C8: both loads raise; the second error is recorded and the
client is still constructed. -/
theorem bootstrap_fallback_order_witness :
    bootstrap (Except.error "a") (Except.error "b") =
      ⟨ConfigOutcome.loadFailed "b", true, true⟩ :=
  (bootstrap_fallback_order (Except.error "a") (Except.error "b")).2.2.2.2
    "a" "b" rfl rfl

/-- C9: the CLI registers exactly the two flags --host and --port, and omitted
flags default to host "0.0.0.0" and port 8081; supplied flags are taken as
given. -/
theorem cli_flags_and_defaults :
    cli_flags = ["--host", "--port"] ∧
    parse_args none none = ⟨"0.0.0.0", 8081⟩ ∧
    ∀ (h : String) (p : Int), parse_args (some h) (some p) = ⟨h, p⟩ :=
  ⟨rfl, rfl, fun _ _ => rfl⟩

/-- C10: get_pods branches on Python truthiness of the namespace argument: for
`None` and for the empty string it lists pods across all namespaces, and only
for a non-empty string does it list pods of that namespace. -/
theorem get_pods_namespace_truthiness (v1 : CoreV1Api) (s : String)
    (hs : s.isEmpty = false) :
    get_pods v1 none = render_pods v1.list_pod_for_all_namespaces ∧
    get_pods v1 (some "") = render_pods v1.list_pod_for_all_namespaces ∧
    get_pods v1 (some s) = render_pods (v1.list_namespaced_pod s) := by
  refine ⟨rfl, rfl, ?_⟩
  simp [get_pods, pyTruthy, hs]

/-- Witness for C10: a non-empty namespace argument selects the namespaced
listing. -/
theorem get_pods_namespace_truthiness_witness :
    get_pods okApi (some "kube-system") =
      render_pods (okApi.list_namespaced_pod "kube-system") :=
  (get_pods_namespace_truthiness okApi "kube-system" rfl).2.2
